import Mathlib

/-!
Shallow embedding of the Inkoki social-network backend (`src/server.py`).

The relational store is modelled as a `DB` record of row lists, one per
table.  Each Flask handler that the claims reference is translated into a
pure function on `DB` (SQL `INSERT` appends a row, `DELETE ... WHERE`
filters rows out, `SELECT ... fetchone()` is `List.find?`, `IN` is list
membership).  Row ids and timestamps that the database would generate are
passed as explicit parameters.  Transaction behaviour (commit/rollback) is
modelled separately via `Conn` for the atomicity claim.
-/

namespace Inkoki

/-- A row of the `users` table (only the columns the claims touch). -/
structure User where
  id : Nat
  bio : String
deriving DecidableEq

/-- A row of the `posts` table. -/
structure Post where
  id : Nat
  user_id : Nat
  caption : String
  created_at : Nat
deriving DecidableEq

/-- A row of the `stories` table; `expires_at` is set by the schema
(`created_at + 24h`), the server only reads it. -/
structure Story where
  id : Nat
  user_id : Nat
  created_at : Nat
  expires_at : Nat
deriving DecidableEq

/-- A row of the `comments` table. -/
structure Comment where
  id : Nat
  user_id : Nat
  post_id : Nat
  text : String
  created_at : Nat
deriving DecidableEq

/-- A row of the `notifications` table: `user_id` is the recipient,
`from_user_id` the actor, `kind` the `type` column
(`post`, `story`, `like`, `comment`, `follow`). -/
structure Notif where
  user_id : Nat
  from_user_id : Nat
  kind : String
  post_id : Option Nat
deriving DecidableEq

/-- The relational store.  `follows` rows are `(follower_id, following_id)`,
`story_views` rows are `(story_id, user_id)`, `likes` rows are
`(user_id, post_id)`. -/
structure DB where
  users : List User
  follows : List (Nat × Nat)
  posts : List Post
  stories : List Story
  story_views : List (Nat × Nat)
  likes : List (Nat × Nat)
  comments : List Comment
  notifications : List Notif
deriving DecidableEq

/-- Python's `s[:n]` on `str`: keep the first `n` code points. -/
def pyTake (s : String) (n : Nat) : String := ⟨s.data.take n⟩

/-- Python's `str.strip()`: remove leading and trailing whitespace. -/
def pyStrip (s : String) : String :=
  ⟨((s.data.dropWhile Char.isWhitespace).reverse.dropWhile
      Char.isWhitespace).reverse⟩

/-- `EXISTS(SELECT 1 FROM users WHERE id = uid)` (the `JOIN users` in reads). -/
def userExists (uid : Nat) (db : DB) : Bool :=
  db.users.any (fun u => u.id = uid)

/-- `SELECT 1 FROM follows WHERE follower_id = a AND following_id = b`. -/
def isFollowing (a b : Nat) (db : DB) : Bool :=
  decide ((a, b) ∈ db.follows)

/-- `SELECT following_id FROM follows WHERE follower_id = user_id`. -/
def followingIdsOf (user_id : Nat) (db : DB) : List Nat :=
  (db.follows.filter (fun e => decide (e.1 = user_id))).map (fun e => e.2)

/-- Handler `toggle_follow` (`POST /api/follow`): rejects a self-follow,
otherwise deletes the existing edge (returning `false`) or inserts the
edge plus one `follow` notification (returning `true`). -/
def toggle_follow (follower_id following_id : Nat) (db : DB) :
    Except String (DB × Bool) :=
  if follower_id = following_id then
    .error "Invalid request"
  else if (follower_id, following_id) ∈ db.follows then
    let remaining :=
      db.follows.filter (fun e => decide (e ≠ (follower_id, following_id)))
    .ok ({ db with follows := remaining }, false)
  else
    .ok ({ db with
           follows := db.follows ++ [(follower_id, following_id)],
           notifications := db.notifications ++
             [⟨following_id, follower_id, "follow", none⟩] },
         true)

/-- Handler `like_post` (`POST /api/post/like`): deletes an existing like
(returning `false`), or inserts the like, looks up the post's owner and,
when the owner exists and is not the liker, inserts one `like`
notification (returning `true`). -/
def like_post (user_id post_id : Nat) (db : DB) : DB × Bool :=
  if (user_id, post_id) ∈ db.likes then
    let remaining :=
      db.likes.filter (fun e => decide (e ≠ (user_id, post_id)))
    ({ db with likes := remaining }, false)
  else
    let db1 := { db with likes := db.likes ++ [(user_id, post_id)] }
    match db.posts.find? (fun p => decide (p.id = post_id)) with
    | some owner_row =>
        if owner_row.user_id ≠ user_id then
          ({ db1 with notifications := db1.notifications ++
              [⟨owner_row.user_id, user_id, "like", some post_id⟩] }, true)
        else (db1, true)
    | none => (db1, true)

/-- Handler `add_story_view` (`POST /api/story/view`):
`INSERT ... ON CONFLICT DO NOTHING`, always reporting success. -/
def add_story_view (user_id story_id : Nat) (db : DB) : DB × Bool :=
  if (story_id, user_id) ∈ db.story_views then (db, true)
  else ({ db with story_views := db.story_views ++ [(story_id, user_id)] },
        true)

/-- Handler `add_comment` (`POST /api/post/comment`): rejects blank text,
inserts the comment with the text stripped and truncated to 500
characters, then inserts one `comment` notification when the post's owner
exists and is not the commenter. -/
def add_comment (user_id post_id : Nat) (text : String) (cid now : Nat)
    (db : DB) : Except String (DB × Comment) :=
  let t := pyStrip text
  if t = "" then .error "Missing required fields"
  else
    let c : Comment := ⟨cid, user_id, post_id, pyTake t 500, now⟩
    let db1 := { db with comments := db.comments ++ [c] }
    match db.posts.find? (fun p => decide (p.id = post_id)) with
    | some owner_row =>
        if owner_row.user_id ≠ user_id then
          .ok ({ db1 with notifications := db1.notifications ++
              [⟨owner_row.user_id, user_id, "comment", some post_id⟩] }, c)
        else .ok (db1, c)
    | none => .ok (db1, c)

/-- Handler `upload_post` (`POST /api/post/upload`), after a successful
media upload: inserts the post with the caption truncated to 2200
characters, then fans out one `post` notification per current follower
(`INSERT ... SELECT follower_id ... FROM follows WHERE following_id = author`). -/
def upload_post (user_id : Nat) (caption : String) (pid now : Nat)
    (db : DB) : DB × Post :=
  let post : Post := ⟨pid, user_id, pyTake caption 2200, now⟩
  let follower_rows := db.follows.filter (fun e => decide (e.2 = user_id))
  ({ db with
     posts := db.posts ++ [post],
     notifications := db.notifications ++
       follower_rows.map (fun e => ⟨e.1, user_id, "post", some pid⟩) },
   post)

/-- Handler `update_profile` (`POST /api/profile/update`):
`bio[:200] if bio else ''` written to the matching user row. -/
def update_profile (user_id : Nat) (bio : Option String) (db : DB) : DB :=
  let newBio := pyTake (bio.getD "") 200
  let updated :=
    db.users.map (fun u => if u.id = user_id then { u with bio := newBio } else u)
  { db with users := updated }

/-- `ORDER BY created_at DESC` for posts. -/
def postDesc (a b : Post) : Prop := b.created_at ≤ a.created_at

instance : DecidableRel postDesc := fun a b =>
  inferInstanceAs (Decidable (b.created_at ≤ a.created_at))

instance : IsTotal Post postDesc :=
  ⟨fun a b => le_total b.created_at a.created_at⟩

instance : IsTrans Post postDesc :=
  ⟨fun _ _ _ h1 h2 => le_trans h2 h1⟩

/-- `ORDER BY created_at DESC` for stories. -/
def storyDesc (a b : Story) : Prop := b.created_at ≤ a.created_at

instance : DecidableRel storyDesc := fun a b =>
  inferInstanceAs (Decidable (b.created_at ≤ a.created_at))

instance : IsTotal Story storyDesc :=
  ⟨fun a b => le_total b.created_at a.created_at⟩

instance : IsTrans Story storyDesc :=
  ⟨fun _ _ _ h1 h2 => le_trans h2 h1⟩

/-- The `WHERE` clause of `get_feed`: the author row joins (`JOIN users`)
and the author is followed by the viewer or is the viewer
(`p.user_id IN (SELECT following_id ... UNION SELECT %s)`). -/
def feedQualifies (user_id : Nat) (db : DB) (p : Post) : Bool :=
  userExists p.user_id db &&
    (decide (p.user_id ∈ followingIdsOf user_id db) || decide (p.user_id = user_id))

/-- Handler `get_feed` (`GET /api/feed`): `SELECT DISTINCT p.* FROM posts p
JOIN users u ON p.user_id = u.id WHERE p.user_id IN
(SELECT following_id FROM follows WHERE follower_id = %s UNION SELECT %s)
ORDER BY p.created_at DESC LIMIT 50`. -/
def get_feed (user_id : Nat) (db : DB) : List Post :=
  let rows := db.posts.filter (feedQualifies user_id db)
  (List.insertionSort postDesc rows.dedup).take 50

/-- One entry of the `stories_dict` that `get_stories` builds: the author id
with that author's stories in the order they were appended. -/
structure StoryGroup where
  user_id : Nat
  stories : List Story
deriving DecidableEq

/-- One iteration of the `get_stories` grouping loop: append the story to
its author's group, creating the group on first sight of the author. -/
def addToGroups (gs : List StoryGroup) (s : Story) : List StoryGroup :=
  if gs.any (fun g => decide (g.user_id = s.user_id)) then
    gs.map (fun g =>
      if g.user_id = s.user_id then { g with stories := g.stories ++ [s] }
      else g)
  else gs ++ [⟨s.user_id, [s]⟩]

/-- The `get_stories` grouping loop over the (already sorted) result rows;
Python dict iteration preserves insertion order. -/
def groupStories (l : List Story) : List StoryGroup :=
  l.foldl addToGroups []

/-- Handler `get_stories` (`GET /api/stories`): first
`DELETE FROM stories WHERE expires_at < NOW()` (committed), then the
stories of followed users with `expires_at > NOW()` sorted most recent
first and grouped by author.  Returns the swept store and the groups. -/
def get_stories (user_id : Nat) (now : Nat) (db : DB) :
    DB × List StoryGroup :=
  let swept := { db with
    stories := db.stories.filter (fun s => decide (¬ s.expires_at < now)) }
  let rows := swept.stories.filter
    (fun s => userExists s.user_id swept &&
      (decide (s.user_id ∈ followingIdsOf user_id swept) &&
       decide (now < s.expires_at)))
  (swept, groupStories (List.insertionSort storyDesc rows))

/-- A psycopg2 connection: statements mutate only the transaction-local
`pending` view; `commit` publishes it, `rollback` discards it. -/
structure Conn where
  committed : DB
  pending : DB

/-- `cur.execute(<mutating statement>)`. -/
def Conn.exec (c : Conn) (f : DB → DB) : Conn :=
  { c with pending := f c.pending }

/-- `conn.commit()`. -/
def Conn.commit (c : Conn) : Conn :=
  { c with committed := c.pending }

/-- `conn.rollback()` (the handlers' `except` branches). -/
def Conn.rollback (c : Conn) : Conn :=
  { c with pending := c.committed }

/-- `like_post` at the connection level with fault injection: `failAt =
some k` raises on the k-th statement (in the executed order), landing in
the `except` branch which rolls back; `none` reaches `conn.commit()`.
Returns the committed store and `some liked` on success, `none` on the
500 path. -/
def like_post_conn (user_id post_id : Nat) (db : DB)
    (failAt : Option Nat) : DB × Option Bool :=
  let c0 : Conn := ⟨db, db⟩
  if failAt = some 0 then (c0.rollback.committed, none)
  else if (user_id, post_id) ∈ c0.pending.likes then
    if failAt = some 1 then (c0.rollback.committed, none)
    else
      let c1 := c0.exec (fun d =>
        { d with likes := d.likes.filter (fun e => decide (e ≠ (user_id, post_id))) })
      if failAt = some 2 then (c1.rollback.committed, none)
      else (c1.commit.committed, some false)
  else
    if failAt = some 1 then (c0.rollback.committed, none)
    else
      let c1 := c0.exec (fun d =>
        { d with likes := d.likes ++ [(user_id, post_id)] })
      if failAt = some 2 then (c1.rollback.committed, none)
      else
        match c1.pending.posts.find? (fun p => decide (p.id = post_id)) with
        | some owner_row =>
          if owner_row.user_id ≠ user_id then
            if failAt = some 3 then (c1.rollback.committed, none)
            else
              let c2 := c1.exec (fun d =>
                { d with notifications := d.notifications ++
                    [⟨owner_row.user_id, user_id, "like", some post_id⟩] })
              if failAt = some 4 then (c2.rollback.committed, none)
              else (c2.commit.committed, some true)
          else
            if failAt = some 3 then (c1.rollback.committed, none)
            else (c1.commit.committed, some true)
        | none =>
          if failAt = some 3 then (c1.rollback.committed, none)
          else (c1.commit.committed, some true)

/-- Outcome of `add_comment` at the connection level. -/
inductive CommentOutcome where
  | invalid : CommentOutcome
  | failed : CommentOutcome
  | ok : Comment → CommentOutcome
deriving DecidableEq

/-- `add_comment` at the connection level with fault injection (same
convention as `like_post_conn`); validation happens before any store
access. -/
def add_comment_conn (user_id post_id : Nat) (text : String)
    (cid now : Nat) (db : DB) (failAt : Option Nat) :
    DB × CommentOutcome :=
  let t := pyStrip text
  if t = "" then (db, .invalid)
  else
    let c0 : Conn := ⟨db, db⟩
    if failAt = some 0 then (c0.rollback.committed, .failed)
    else
      let c : Comment := ⟨cid, user_id, post_id, pyTake t 500, now⟩
      let c1 := c0.exec (fun d => { d with comments := d.comments ++ [c] })
      if failAt = some 1 then (c1.rollback.committed, .failed)
      else
        match c1.pending.posts.find? (fun p => decide (p.id = post_id)) with
        | some owner_row =>
          if owner_row.user_id ≠ user_id then
            if failAt = some 2 then (c1.rollback.committed, .failed)
            else
              let c2 := c1.exec (fun d =>
                { d with notifications := d.notifications ++
                    [⟨owner_row.user_id, user_id, "comment", some post_id⟩] })
              if failAt = some 3 then (c2.rollback.committed, .failed)
              else (c2.commit.committed, .ok c)
          else
            if failAt = some 2 then (c1.rollback.committed, .failed)
            else (c1.commit.committed, .ok c)
        | none =>
          if failAt = some 2 then (c1.rollback.committed, .failed)
          else (c1.commit.committed, .ok c)

/-- Handler `upload_story` (`POST /api/story/upload`), after a successful
media upload: inserts the story row (id, `created_at` and `expires_at`
are database-generated), then fans out one `story` notification per
current follower (`INSERT ... SELECT follower_id, %s, 'story' FROM
follows WHERE following_id = author`; no post reference). -/
def upload_story (user_id sid now exp : Nat) (db : DB) : DB × Story :=
  let story : Story := ⟨sid, user_id, now, exp⟩
  let follower_rows := db.follows.filter (fun e => decide (e.2 = user_id))
  ({ db with
     stories := db.stories ++ [story],
     notifications := db.notifications ++
       follower_rows.map (fun e => ⟨e.1, user_id, "story", none⟩) },
   story)

/-- Outcome of `toggle_follow` at the connection level. -/
inductive ToggleOutcome where
  | invalid : ToggleOutcome
  | failed : ToggleOutcome
  | ok : Bool → ToggleOutcome
deriving DecidableEq

/-- `toggle_follow` at the connection level with fault injection (same
convention as `like_post_conn`); the self-follow validation happens
before any store access. -/
def toggle_follow_conn (follower_id following_id : Nat) (db : DB)
    (failAt : Option Nat) : DB × ToggleOutcome :=
  if follower_id = following_id then (db, .invalid)
  else
    let c0 : Conn := ⟨db, db⟩
    if failAt = some 0 then (c0.rollback.committed, .failed)
    else if (follower_id, following_id) ∈ c0.pending.follows then
      if failAt = some 1 then (c0.rollback.committed, .failed)
      else
        let c1 := c0.exec (fun d =>
          { d with follows := d.follows.filter (fun e => decide (e ≠ (follower_id, following_id))) })
        if failAt = some 2 then (c1.rollback.committed, .failed)
        else (c1.commit.committed, .ok false)
    else
      if failAt = some 1 then (c0.rollback.committed, .failed)
      else
        let c1 := c0.exec (fun d =>
          { d with follows := d.follows ++ [(follower_id, following_id)] })
        if failAt = some 2 then (c1.rollback.committed, .failed)
        else
          let c2 := c1.exec (fun d =>
            { d with notifications := d.notifications ++ [⟨following_id, follower_id, "follow", none⟩] })
          if failAt = some 3 then (c2.rollback.committed, .failed)
          else (c2.commit.committed, .ok true)

/-- `upload_post` at the connection level with fault injection: the post
insert and the fan-out `INSERT ... SELECT` are the two statements before
the single `conn.commit()`. -/
def upload_post_conn (user_id : Nat) (caption : String) (pid now : Nat)
    (db : DB) (failAt : Option Nat) : DB × Option Post :=
  let c0 : Conn := ⟨db, db⟩
  if failAt = some 0 then (c0.rollback.committed, none)
  else
    let post : Post := ⟨pid, user_id, pyTake caption 2200, now⟩
    let c1 := c0.exec (fun d => { d with posts := d.posts ++ [post] })
    if failAt = some 1 then (c1.rollback.committed, none)
    else
      let c2 := c1.exec (fun d =>
        { d with notifications := d.notifications ++ (d.follows.filter (fun e => decide (e.2 = user_id))).map (fun e => ⟨e.1, user_id, "post", some pid⟩) })
      if failAt = some 2 then (c2.rollback.committed, none)
      else (c2.commit.committed, some post)

/-- `upload_story` at the connection level with fault injection: the
story insert and the fan-out `INSERT ... SELECT` are the two statements
before the single `conn.commit()`. -/
def upload_story_conn (user_id sid now exp : Nat) (db : DB)
    (failAt : Option Nat) : DB × Option Story :=
  let c0 : Conn := ⟨db, db⟩
  if failAt = some 0 then (c0.rollback.committed, none)
  else
    let story : Story := ⟨sid, user_id, now, exp⟩
    let c1 := c0.exec (fun d => { d with stories := d.stories ++ [story] })
    if failAt = some 1 then (c1.rollback.committed, none)
    else
      let c2 := c1.exec (fun d =>
        { d with notifications := d.notifications ++ (d.follows.filter (fun e => decide (e.2 = user_id))).map (fun e => ⟨e.1, user_id, "story", none⟩) })
      if failAt = some 2 then (c2.rollback.committed, none)
      else (c2.commit.committed, some story)

/-! ## Helper lemmas -/

theorem mem_followingIdsOf {a b : Nat} {db : DB} :
    b ∈ followingIdsOf a db ↔ (a, b) ∈ db.follows := by
  constructor
  · intro h
    simp only [followingIdsOf, List.mem_map, List.mem_filter] at h
    obtain ⟨e, ⟨he, h1⟩, h2⟩ := h
    have : e = (a, b) := by
      cases e
      simp_all [Prod.ext_iff]
    exact this ▸ he
  · intro h
    simp only [followingIdsOf, List.mem_map, List.mem_filter]
    exact ⟨(a, b), ⟨h, by simp⟩, rfl⟩

theorem filter_ne_eq_self {α : Type} [DecidableEq α] {l : List α} {x : α}
    (hx : x ∉ l) : l.filter (fun e => decide (e ≠ x)) = l := by
  apply List.filter_eq_self.mpr
  intro e he
  simp only [decide_eq_true_eq]
  intro h
  exact hx (h ▸ he)

/-! ## C1: double `toggle_follow` is a round trip on the follow graph -/

/-- C1: for distinct existing users `a`, `b` with `a` not following `b`,
`toggle_follow a b` twice returns `true` then `false`, after which
`isFollowing a b` is false and the follow table is back to its original
contents. -/
theorem toggle_follow_double_roundtrip (a b : Nat) (db : DB)
    (hab : a ≠ b) (ha : userExists a db = true) (hb : userExists b db = true)
    (hnot : isFollowing a b db = false) :
    ∃ db1 db2,
      toggle_follow a b db = .ok (db1, true) ∧
      toggle_follow a b db1 = .ok (db2, false) ∧
      isFollowing a b db2 = false ∧
      db2.follows = db.follows := by
  have hmem : (a, b) ∉ db.follows := by
    simpa [isFollowing] using hnot
  have h1 : toggle_follow a b db =
      .ok ({ db with follows := db.follows ++ [(a, b)], notifications := db.notifications ++ [⟨b, a, "follow", none⟩] }, true) := by
    simp [toggle_follow, hab, hmem]
  have hmem1 : (a, b) ∈ db.follows ++ [(a, b)] :=
    List.mem_append_right _ (by simp)
  have hfil : (db.follows ++ [(a, b)]).filter (fun e => decide (e ≠ (a, b)))
      = db.follows := by
    rw [List.filter_append, filter_ne_eq_self hmem]
    simp
  have h2 : toggle_follow a b { db with follows := db.follows ++ [(a, b)], notifications := db.notifications ++ [⟨b, a, "follow", none⟩] } =
      .ok ({ db with follows := db.follows, notifications := db.notifications ++ [⟨b, a, "follow", none⟩] }, false) := by
    simp only [toggle_follow, if_neg hab]
    rw [if_pos hmem1]
    simp only [hfil]
  exact ⟨_, _, h1, h2, by simpa [isFollowing] using hmem, rfl⟩

/-- Witness for C1 at a concrete store with users 1 and 2. -/
theorem toggle_follow_double_roundtrip_witness :
    ∃ db1 db2,
      toggle_follow 1 2 ⟨[⟨1, ""⟩, ⟨2, ""⟩], [], [], [], [], [], [], []⟩
        = .ok (db1, true) ∧
      toggle_follow 1 2 db1 = .ok (db2, false) ∧
      isFollowing 1 2 db2 = false ∧
      db2.follows = [] :=
  toggle_follow_double_roundtrip 1 2
    ⟨[⟨1, ""⟩, ⟨2, ""⟩], [], [], [], [], [], [], []⟩
    (by decide) (by decide) (by decide) (by decide)

/-! ## C7: `add_story_view` is idempotent and never errors on repetition -/

/-- C7: under the store's uniqueness constraint on `(story, viewer)` (at
most one row), calling `add_story_view` twice for the same pair succeeds
both times, the second call changes nothing, and exactly one StoryView
row for the pair remains. -/
theorem add_story_view_idempotent (u s : Nat) (db : DB)
    (hle : db.story_views.count (s, u) ≤ 1) :
    (add_story_view u s db).2 = true ∧
    (add_story_view u s (add_story_view u s db).1).2 = true ∧
    (add_story_view u s (add_story_view u s db).1).1
      = (add_story_view u s db).1 ∧
    (add_story_view u s (add_story_view u s db).1).1.story_views.count (s, u)
      = 1 := by
  by_cases h : (s, u) ∈ db.story_views
  · have h1 : add_story_view u s db = (db, true) := by
      simp [add_story_view, h]
    have hcount : db.story_views.count (s, u) = 1 :=
      le_antisymm hle (List.count_pos_iff.mpr h)
    rw [h1]
    exact ⟨rfl, by simp [add_story_view, h], by simp [add_story_view, h],
           by simpa [add_story_view, h] using hcount⟩
  · have h1 : add_story_view u s db =
        ({ db with story_views := db.story_views ++ [(s, u)] }, true) := by
      simp [add_story_view, h]
    have hmem1 : (s, u) ∈ db.story_views ++ [(s, u)] :=
      List.mem_append_right _ (by simp)
    have hzero : db.story_views.count (s, u) = 0 :=
      List.count_eq_zero.mpr h
    rw [h1]
    refine ⟨rfl, by simp [add_story_view, hmem1], by simp [add_story_view, hmem1], ?_⟩
    simp [add_story_view, hmem1, List.count_append, hzero]

/-- Witness for C7 on an empty store. -/
theorem add_story_view_idempotent_witness :
    (add_story_view 1 9 ⟨[], [], [], [], [], [], [], []⟩).2 = true ∧
    (add_story_view 1 9 (add_story_view 1 9 ⟨[], [], [], [], [], [], [], []⟩).1).2 = true ∧
    (add_story_view 1 9 (add_story_view 1 9 ⟨[], [], [], [], [], [], [], []⟩).1).1
      = (add_story_view 1 9 ⟨[], [], [], [], [], [], [], []⟩).1 ∧
    (add_story_view 1 9 (add_story_view 1 9 ⟨[], [], [], [], [], [], [], []⟩).1).1.story_views.count (9, 1)
      = 1 :=
  add_story_view_idempotent 1 9 ⟨[], [], [], [], [], [], [], []⟩ (by decide)

/-! ## C3 (corrected): toggles on missing targets do not raise NotFound -/

/-- C3 counterexample: with a store holding only user 1 and no posts,
`like_post 1 99` (post 99 does not exist) writes a like row and reports
success, and `toggle_follow 1 99` (user 99 does not exist) writes a
follow edge plus a follow notification and reports success — neither
fails, and both perform writes. -/
theorem toggle_missing_target_counterexample :
    like_post 1 99 ⟨[⟨1, ""⟩], [], [], [], [], [], [], []⟩
      = (⟨[⟨1, ""⟩], [], [], [], [], [(1, 99)], [], []⟩, true) ∧
    (like_post 1 99 ⟨[⟨1, ""⟩], [], [], [], [], [], [], []⟩).1
      ≠ ⟨[⟨1, ""⟩], [], [], [], [], [], [], []⟩ ∧
    toggle_follow 1 99 ⟨[⟨1, ""⟩], [], [], [], [], [], [], []⟩
      = .ok (⟨[⟨1, ""⟩], [(1, 99)], [], [], [], [], [], [⟨99, 1, "follow", none⟩]⟩, true) ∧
    userExists 99 ⟨[⟨1, ""⟩], [], [], [], [], [], [], []⟩ = false := by
  refine ⟨rfl, by decide, rfl, rfl⟩

/-- C3 as amended: when the referenced post (for `like_post`) or followee
(for `toggle_follow`) does not exist, the operation does not fail: the
membership row is still written and the call reports success.
`like_post` then emits no notification; `toggle_follow` still emits its
follow notification. -/
theorem toggle_missing_target_no_notfound
    (u pid a b : Nat) (db : DB)
    (hpost : db.posts.find? (fun p => decide (p.id = pid)) = none)
    (hnl : (u, pid) ∉ db.likes)
    (hne : a ≠ b)
    (hnf : (a, b) ∉ db.follows) :
    like_post u pid db = ({ db with likes := db.likes ++ [(u, pid)] }, true) ∧
    toggle_follow a b db
      = .ok ({ db with follows := db.follows ++ [(a, b)], notifications := db.notifications ++ [⟨b, a, "follow", none⟩] }, true) := by
  constructor
  · simp [like_post, hnl, hpost]
  · simp [toggle_follow, hne, hnf]

/-- Witness for the amended C3 at a concrete store. -/
theorem toggle_missing_target_no_notfound_witness :
    like_post 2 77 ⟨[⟨2, ""⟩], [], [], [], [], [], [], []⟩
      = ({ users := [⟨2, ""⟩], follows := [], posts := [], stories := [], story_views := [], likes := [] ++ [(2, 77)], comments := [], notifications := [] }, true) ∧
    toggle_follow 2 77 ⟨[⟨2, ""⟩], [], [], [], [], [], [], []⟩
      = .ok ({ users := [⟨2, ""⟩], follows := [] ++ [(2, 77)], posts := [], stories := [], story_views := [], likes := [], comments := [], notifications := [] ++ [⟨77, 2, "follow", none⟩] }, true) :=
  toggle_missing_target_no_notfound 2 77 2 77 ⟨[⟨2, ""⟩], [], [], [], [], [], [], []⟩
    (by decide) (by decide) (by decide) (by decide)

/-! ## C2: like notifications -/

/-- C2: with `P` the post row found for `pid`: liking it from the absent
state emits exactly one `like` notification to `P`'s author unless the
liker is the author (then none); unliking emits no notification and
retracts none. -/
theorem like_post_notification_spec
    (u pid : Nat) (P : Post) (db : DB)
    (hfind : db.posts.find? (fun p => decide (p.id = pid)) = some P) :
    ((u, pid) ∉ db.likes → P.user_id ≠ u →
       (like_post u pid db).2 = true ∧
       (like_post u pid db).1.notifications
         = db.notifications ++ [⟨P.user_id, u, "like", some pid⟩]) ∧
    ((u, pid) ∉ db.likes → P.user_id = u →
       (like_post u pid db).2 = true ∧
       (like_post u pid db).1.notifications = db.notifications) ∧
    ((u, pid) ∈ db.likes →
       (like_post u pid db).2 = false ∧
       (like_post u pid db).1.notifications = db.notifications) := by
  refine ⟨?_, ?_, ?_⟩
  · intro hnl hne
    simp [like_post, hnl, hfind, hne]
  · intro hnl heq
    simp [like_post, hnl, hfind, heq]
  · intro hl
    simp [like_post, hl]

/-- Witness for C2: user 1 likes post 5 authored by user 2. -/
theorem like_post_notification_spec_witness :
    ((1, 5) ∉ ([] : List (Nat × Nat)) → Post.user_id ⟨5, 2, "", 0⟩ ≠ 1 →
       (like_post 1 5 ⟨[⟨1, ""⟩, ⟨2, ""⟩], [], [⟨5, 2, "", 0⟩], [], [], [], [], []⟩).2 = true ∧
       (like_post 1 5 ⟨[⟨1, ""⟩, ⟨2, ""⟩], [], [⟨5, 2, "", 0⟩], [], [], [], [], []⟩).1.notifications
         = [] ++ [⟨Post.user_id ⟨5, 2, "", 0⟩, 1, "like", some 5⟩]) ∧
    ((1, 5) ∉ ([] : List (Nat × Nat)) → Post.user_id ⟨5, 2, "", 0⟩ = 1 →
       (like_post 1 5 ⟨[⟨1, ""⟩, ⟨2, ""⟩], [], [⟨5, 2, "", 0⟩], [], [], [], [], []⟩).2 = true ∧
       (like_post 1 5 ⟨[⟨1, ""⟩, ⟨2, ""⟩], [], [⟨5, 2, "", 0⟩], [], [], [], [], []⟩).1.notifications = []) ∧
    ((1, 5) ∈ ([] : List (Nat × Nat)) →
       (like_post 1 5 ⟨[⟨1, ""⟩, ⟨2, ""⟩], [], [⟨5, 2, "", 0⟩], [], [], [], [], []⟩).2 = false ∧
       (like_post 1 5 ⟨[⟨1, ""⟩, ⟨2, ""⟩], [], [⟨5, 2, "", 0⟩], [], [], [], [], []⟩).1.notifications = []) :=
  like_post_notification_spec 1 5 ⟨5, 2, "", 0⟩
    ⟨[⟨1, ""⟩, ⟨2, ""⟩], [], [⟨5, 2, "", 0⟩], [], [], [], [], []⟩ (by decide)

/-! ## C10: comment notifications -/

/-- C10: with `P` the post row found for `pid` and nonblank text, a
comment by `P`'s own author inserts the comment and emits no
notification; a comment by anyone else inserts the comment and emits
exactly one `comment` notification to `P`'s author. -/
theorem add_comment_notification_spec
    (u pid cid now : Nat) (text : String) (P : Post) (db : DB)
    (htext : pyStrip text ≠ "")
    (hfind : db.posts.find? (fun p => decide (p.id = pid)) = some P) :
    (P.user_id = u →
       add_comment u pid text cid now db
         = .ok ({ db with comments := db.comments ++ [⟨cid, u, pid, pyTake (pyStrip text) 500, now⟩] }, ⟨cid, u, pid, pyTake (pyStrip text) 500, now⟩)) ∧
    (P.user_id ≠ u →
       add_comment u pid text cid now db
         = .ok ({ db with comments := db.comments ++ [⟨cid, u, pid, pyTake (pyStrip text) 500, now⟩], notifications := db.notifications ++ [⟨P.user_id, u, "comment", some pid⟩] }, ⟨cid, u, pid, pyTake (pyStrip text) 500, now⟩)) := by
  constructor
  · intro heq
    simp [add_comment, htext, hfind, heq]
  · intro hne
    simp [add_comment, htext, hfind, hne]

/-- Witness for C10: user 1 comments on post 5 authored by user 2. -/
theorem add_comment_notification_spec_witness :
    (Post.user_id ⟨5, 2, "", 0⟩ = 1 →
       add_comment 1 5 "nice" 7 3 ⟨[⟨1, ""⟩, ⟨2, ""⟩], [], [⟨5, 2, "", 0⟩], [], [], [], [], []⟩
         = .ok ({ users := [⟨1, ""⟩, ⟨2, ""⟩], follows := [], posts := [⟨5, 2, "", 0⟩], stories := [], story_views := [], likes := [], comments := [] ++ [⟨7, 1, 5, pyTake (pyStrip "nice") 500, 3⟩], notifications := [] }, ⟨7, 1, 5, pyTake (pyStrip "nice") 500, 3⟩)) ∧
    (Post.user_id ⟨5, 2, "", 0⟩ ≠ 1 →
       add_comment 1 5 "nice" 7 3 ⟨[⟨1, ""⟩, ⟨2, ""⟩], [], [⟨5, 2, "", 0⟩], [], [], [], [], []⟩
         = .ok ({ users := [⟨1, ""⟩, ⟨2, ""⟩], follows := [], posts := [⟨5, 2, "", 0⟩], stories := [], story_views := [], likes := [], comments := [] ++ [⟨7, 1, 5, pyTake (pyStrip "nice") 500, 3⟩], notifications := [] ++ [⟨2, 1, "comment", some 5⟩] }, ⟨7, 1, 5, pyTake (pyStrip "nice") 500, 3⟩)) :=
  add_comment_notification_spec 1 5 7 3 "nice" ⟨5, 2, "", 0⟩
    ⟨[⟨1, ""⟩, ⟨2, ""⟩], [], [⟨5, 2, "", 0⟩], [], [], [], [], []⟩
    (by decide) (by decide)

/-! ## C9 (corrected): server-side truncation of text fields -/

theorem pyTake_length_le (s : String) (n : Nat) : (pyTake s n).length ≤ n := by
  show (s.data.take n).length ≤ n
  exact List.length_take_le n s.data

/-- C9 counterexample: comment text is stripped before truncation, so the
persisted text of a comment on input `" hi"` is `"hi"`, which differs
from the truncation of the input (`pyTake " hi" 500 = " hi"`). -/
theorem comment_trim_counterexample :
    add_comment 1 5 " hi" 7 3 ⟨[⟨1, ""⟩, ⟨2, ""⟩], [], [⟨5, 2, "", 0⟩], [], [], [], [], []⟩
      = .ok (⟨[⟨1, ""⟩, ⟨2, ""⟩], [], [⟨5, 2, "", 0⟩], [], [], [], [⟨7, 1, 5, "hi", 3⟩], [⟨2, 1, "comment", some 5⟩]⟩, ⟨7, 1, 5, "hi", 3⟩) ∧
    pyTake " hi" 500 = " hi" ∧
    ("hi" : String) ≠ " hi" := by
  refine ⟨rfl, rfl, by decide⟩

/-- Helper: whatever the post lookup yields, `add_comment` with nonblank
text inserts exactly one comment row whose text is the stripped input
truncated to 500 characters. -/
theorem add_comment_inserts (u p : Nat) (text : String) (cid now : Nat)
    (db : DB) (htext : pyStrip text ≠ "") :
    ∃ db1, add_comment u p text cid now db
        = .ok (db1, ⟨cid, u, p, pyTake (pyStrip text) 500, now⟩) ∧
      db1.comments = db.comments ++ [⟨cid, u, p, pyTake (pyStrip text) 500, now⟩] := by
  cases hfind : db.posts.find? (fun q => decide (q.id = p)) with
  | none =>
    exact ⟨{ db with comments := db.comments ++ [⟨cid, u, p, pyTake (pyStrip text) 500, now⟩] },
           by simp [add_comment, htext, hfind], rfl⟩
  | some orow =>
    by_cases hne : orow.user_id = u
    · exact ⟨{ db with comments := db.comments ++ [⟨cid, u, p, pyTake (pyStrip text) 500, now⟩] },
             by simp [add_comment, htext, hfind, hne], rfl⟩
    · exact ⟨{ db with comments := db.comments ++ [⟨cid, u, p, pyTake (pyStrip text) 500, now⟩], notifications := db.notifications ++ [⟨orow.user_id, u, "comment", some p⟩] },
             by simp [add_comment, htext, hfind, hne], rfl⟩

/-- C9 as amended: captions are persisted as the raw input truncated to
2200 characters; comment text is persisted as the **stripped** input
truncated to 500 characters; bios as the input (or empty string when
absent) truncated to 200 characters — longer inputs truncated, not
rejected, before the row is written. -/
theorem text_truncation_spec
    (author : Nat) (caption : String) (pid nowp : Nat)
    (u p cid nowc : Nat) (text : String)
    (uid : Nat) (bio : Option String) (usr : User)
    (db : DB) (htext : pyStrip text ≠ "")
    (hu : usr ∈ db.users) (hid : usr.id = uid) :
    ((upload_post author caption pid nowp db).2.caption = pyTake caption 2200 ∧
     (upload_post author caption pid nowp db).2.caption.length ≤ 2200 ∧
     (upload_post author caption pid nowp db).1.posts
       = db.posts ++ [(upload_post author caption pid nowp db).2]) ∧
    (∃ db1 c, add_comment u p text cid nowc db = .ok (db1, c) ∧
       db1.comments = db.comments ++ [c] ∧
       c.text = pyTake (pyStrip text) 500 ∧ c.text.length ≤ 500) ∧
    (∃ usr1 ∈ (update_profile uid bio db).users,
       usr1.id = uid ∧ usr1.bio = pyTake (bio.getD "") 200 ∧
       usr1.bio.length ≤ 200) := by
  refine ⟨⟨rfl, pyTake_length_le caption 2200, rfl⟩, ?_, ?_⟩
  · obtain ⟨db1, hok, hcom⟩ := add_comment_inserts u p text cid nowc db htext
    exact ⟨db1, _, hok, hcom, rfl, pyTake_length_le _ 500⟩
  · refine ⟨{ usr with bio := pyTake (bio.getD "") 200 }, ?_, hid, rfl,
            pyTake_length_le _ 200⟩
    simp only [update_profile, List.mem_map]
    exact ⟨usr, hu, by simp [hid]⟩

/-- Witness for the amended C9 at concrete inputs. -/
theorem text_truncation_spec_witness :
    ((upload_post 1 "cap" 4 0 ⟨[⟨1, "b"⟩], [], [], [], [], [], [], []⟩).2.caption = pyTake "cap" 2200 ∧
     (upload_post 1 "cap" 4 0 ⟨[⟨1, "b"⟩], [], [], [], [], [], [], []⟩).2.caption.length ≤ 2200 ∧
     (upload_post 1 "cap" 4 0 ⟨[⟨1, "b"⟩], [], [], [], [], [], [], []⟩).1.posts
       = [] ++ [(upload_post 1 "cap" 4 0 ⟨[⟨1, "b"⟩], [], [], [], [], [], [], []⟩).2]) ∧
    (∃ db1 c, add_comment 2 9 " words " 5 1 ⟨[⟨1, "b"⟩], [], [], [], [], [], [], []⟩ = .ok (db1, c) ∧
       db1.comments = [] ++ [c] ∧
       c.text = pyTake (pyStrip " words ") 500 ∧ c.text.length ≤ 500) ∧
    (∃ usr1 ∈ (update_profile 1 (some "bio!") ⟨[⟨1, "b"⟩], [], [], [], [], [], [], []⟩).users,
       usr1.id = 1 ∧ usr1.bio = pyTake ((some "bio!").getD "") 200 ∧
       usr1.bio.length ≤ 200) :=
  text_truncation_spec 1 "cap" 4 0 2 9 5 1 " words " 1 (some "bio!") ⟨1, "b"⟩
    ⟨[⟨1, "b"⟩], [], [], [], [], [], [], []⟩ (by decide) (by decide) (by decide)

/-! ## C6: post-creation notification fan-out is a snapshot -/

/-- Number of `post` notifications about post `pid` from `author` whose
recipient is `r`. -/
def postNotifCountFor (r author pid : Nat) (l : List Notif) : Nat :=
  l.countP (fun n => decide (n.user_id = r) && decide (n.from_user_id = author) &&
    decide (n.kind = "post") && decide (n.post_id = some pid))

theorem countP_eq_one_of_nodup_mem {α : Type} [DecidableEq α]
    {l : List α} {x : α} (hn : l.Nodup) (hx : x ∈ l) :
    l.countP (fun e => decide (e = x)) = 1 := by
  induction l with
  | nil => cases hx
  | cons a t ih =>
    rw [List.nodup_cons] at hn
    rw [List.countP_cons]
    rcases List.mem_cons.mp hx with h | h
    · subst h
      have hz : t.countP (fun e => decide (e = x)) = 0 :=
        List.countP_eq_zero.mpr (fun e he => by
          simp only [decide_eq_true_eq]
          intro hea
          exact hn.1 (hea ▸ he))
      simp [hz]
    · have hax : ¬ (a = x) := fun hax => hn.1 (hax ▸ h)
      rw [ih hn.2 h]
      simp [hax]

theorem postNotifCountFor_fanout (r author pid : Nat) (l : List (Nat × Nat)) :
    postNotifCountFor r author pid
      ((l.filter (fun e => decide (e.2 = author))).map
        (fun e => ⟨e.1, author, "post", some pid⟩))
      = l.countP (fun e => decide (e = (r, author))) := by
  rw [postNotifCountFor, List.countP_map, List.countP_filter]
  apply List.countP_congr
  intro e _
  cases e with
  | mk x y =>
    simp only [Function.comp, Bool.and_eq_true, decide_eq_true_eq, Prod.mk.injEq]
    tauto

/-- C6: creating a post with follower set taken from the `follows` table
produces exactly one `post` notification per follower that exists at
creation time and none for anyone else; a follow toggled in either
direction afterwards neither adds nor removes `post` notifications for
that post. -/
theorem upload_post_fanout_snapshot
    (author : Nat) (caption : String) (pid now : Nat) (db : DB)
    (hnodup : db.follows.Nodup)
    (hfresh : ∀ n ∈ db.notifications, n.post_id ≠ some pid) :
    (∀ f, (f, author) ∈ db.follows →
        postNotifCountFor f author pid
          (upload_post author caption pid now db).1.notifications = 1) ∧
    (∀ r, (r, author) ∉ db.follows →
        postNotifCountFor r author pid
          (upload_post author caption pid now db).1.notifications = 0) ∧
    (∀ g res, toggle_follow g author (upload_post author caption pid now db).1 = .ok res →
        ∀ r, postNotifCountFor r author pid res.1.notifications
           = postNotifCountFor r author pid
               (upload_post author caption pid now db).1.notifications) := by
  have hold : ∀ r, postNotifCountFor r author pid db.notifications = 0 := by
    intro r
    apply List.countP_eq_zero.mpr
    intro n hn
    simp only [Bool.and_eq_true, decide_eq_true_eq]
    rintro ⟨-, hpid⟩
    exact hfresh n hn hpid
  have hnew : ∀ r, postNotifCountFor r author pid
      (upload_post author caption pid now db).1.notifications
      = db.follows.countP (fun e => decide (e = (r, author))) := by
    intro r
    show postNotifCountFor r author pid (db.notifications ++ _) = _
    rw [postNotifCountFor, List.countP_append, ← postNotifCountFor, hold r,
        Nat.zero_add, ← postNotifCountFor, postNotifCountFor_fanout]
  refine ⟨?_, ?_, ?_⟩
  · intro f hf
    rw [hnew f]
    exact countP_eq_one_of_nodup_mem hnodup hf
  · intro r hr
    rw [hnew r]
    apply List.countP_eq_zero.mpr
    intro e he
    simp only [decide_eq_true_eq]
    intro hex
    exact hr (hex ▸ he)
  · intro g res htog r
    by_cases hga : g = author
    · simp [toggle_follow, hga] at htog
    · by_cases hmem :
        (g, author) ∈ (upload_post author caption pid now db).1.follows
      · simp only [toggle_follow, if_neg hga, if_pos hmem,
          Except.ok.injEq] at htog
        rw [← htog]
      · simp only [toggle_follow, if_neg hga, if_neg hmem,
          Except.ok.injEq] at htog
        rw [← htog]
        show postNotifCountFor r author pid (_ ++ [⟨author, g, "follow", none⟩]) = _
        rw [postNotifCountFor, List.countP_append, ← postNotifCountFor]
        simp [postNotifCountFor]

/-- Witness for C6: author 1 with followers 3 and 4 at creation time. -/
theorem upload_post_fanout_snapshot_witness :
    (∀ f, (f, 1) ∈ [(3, 1), (4, 1)] →
        postNotifCountFor f 1 9
          (upload_post 1 "" 9 0 ⟨[⟨1, ""⟩, ⟨3, ""⟩, ⟨4, ""⟩], [(3, 1), (4, 1)], [], [], [], [], [], []⟩).1.notifications = 1) ∧
    (∀ r, (r, 1) ∉ [(3, 1), (4, 1)] →
        postNotifCountFor r 1 9
          (upload_post 1 "" 9 0 ⟨[⟨1, ""⟩, ⟨3, ""⟩, ⟨4, ""⟩], [(3, 1), (4, 1)], [], [], [], [], [], []⟩).1.notifications = 0) ∧
    (∀ g res, toggle_follow g 1 (upload_post 1 "" 9 0 ⟨[⟨1, ""⟩, ⟨3, ""⟩, ⟨4, ""⟩], [(3, 1), (4, 1)], [], [], [], [], [], []⟩).1 = .ok res →
        ∀ r, postNotifCountFor r 1 9 res.1.notifications
           = postNotifCountFor r 1 9
               (upload_post 1 "" 9 0 ⟨[⟨1, ""⟩, ⟨3, ""⟩, ⟨4, ""⟩], [(3, 1), (4, 1)], [], [], [], [], [], []⟩).1.notifications) :=
  upload_post_fanout_snapshot 1 "" 9 0
    ⟨[⟨1, ""⟩, ⟨3, ""⟩, ⟨4, ""⟩], [(3, 1), (4, 1)], [], [], [], [], [], []⟩
    (by decide) (by decide)

/-! ## C8: mutating actions are atomic (all-or-nothing) -/

/-- C8: at the connection level, every mutating action — like toggle,
follow toggle, comment creation, and post/story creation with their
notification fan-out — either commits exactly the writes of the
corresponding full (pure) operation, or — when any statement of the
sequence raises — rolls back to the initial store; no prefix of the
write sequence is ever observable. -/
theorem mutations_atomic (u pid cid now : Nat) (text : String)
    (a b author : Nat) (caption : String) (npid nowp sid nows exp : Nat)
    (db : DB) (failAt : Option Nat) :
    ((like_post_conn u pid db failAt).2 = none →
       (like_post_conn u pid db failAt).1 = db) ∧
    (∀ b', (like_post_conn u pid db failAt).2 = some b' →
       (like_post_conn u pid db failAt).1 = (like_post u pid db).1 ∧
       b' = (like_post u pid db).2) ∧
    ((add_comment_conn u pid text cid now db failAt).2 = .invalid →
       (add_comment_conn u pid text cid now db failAt).1 = db ∧
       add_comment u pid text cid now db = .error "Missing required fields") ∧
    ((add_comment_conn u pid text cid now db failAt).2 = .failed →
       (add_comment_conn u pid text cid now db failAt).1 = db) ∧
    (∀ c, (add_comment_conn u pid text cid now db failAt).2 = .ok c →
       add_comment u pid text cid now db
         = .ok ((add_comment_conn u pid text cid now db failAt).1, c)) ∧
    ((toggle_follow_conn a b db failAt).2 = .invalid →
       (toggle_follow_conn a b db failAt).1 = db ∧
       toggle_follow a b db = .error "Invalid request") ∧
    ((toggle_follow_conn a b db failAt).2 = .failed →
       (toggle_follow_conn a b db failAt).1 = db) ∧
    (∀ r, (toggle_follow_conn a b db failAt).2 = .ok r →
       toggle_follow a b db = .ok ((toggle_follow_conn a b db failAt).1, r)) ∧
    ((upload_post_conn author caption npid nowp db failAt).2 = none →
       (upload_post_conn author caption npid nowp db failAt).1 = db) ∧
    (∀ P, (upload_post_conn author caption npid nowp db failAt).2 = some P →
       (upload_post_conn author caption npid nowp db failAt).1
         = (upload_post author caption npid nowp db).1 ∧
       P = (upload_post author caption npid nowp db).2) ∧
    ((upload_story_conn author sid nows exp db failAt).2 = none →
       (upload_story_conn author sid nows exp db failAt).1 = db) ∧
    (∀ S, (upload_story_conn author sid nows exp db failAt).2 = some S →
       (upload_story_conn author sid nows exp db failAt).1
         = (upload_story author sid nows exp db).1 ∧
       S = (upload_story author sid nows exp db).2) := by
  have hlike : ((like_post_conn u pid db failAt).2 = none →
       (like_post_conn u pid db failAt).1 = db) ∧
      (∀ b, (like_post_conn u pid db failAt).2 = some b →
       (like_post_conn u pid db failAt).1 = (like_post u pid db).1 ∧
       b = (like_post u pid db).2) := by
    by_cases hmem : (u, pid) ∈ db.likes
    · simp only [like_post_conn, like_post, Conn.exec, Conn.commit,
        Conn.rollback, hmem, if_true]
      rcases failAt with - | k
      · simp
      · rcases Nat.lt_or_ge k 3 with hk | hk
        · interval_cases k <;> simp
        · have h0 : ¬ (some k = some 0) := by simp only [Option.some.injEq]; omega
          have h1 : ¬ (some k = some 1) := by simp only [Option.some.injEq]; omega
          have h2 : ¬ (some k = some 2) := by simp only [Option.some.injEq]; omega
          simp [h0, h1, h2]
    · simp only [like_post_conn, like_post, Conn.exec, Conn.commit,
        Conn.rollback, hmem, if_false]
      rcases failAt with - | k
      · cases hfind : db.posts.find? (fun p => decide (p.id = pid)) with
        | none => simp [hfind]
        | some orow =>
          by_cases hne : orow.user_id = u
          · simp [hfind, hne]
          · simp [hfind, hne]
      · rcases Nat.lt_or_ge k 5 with hk | hk
        · interval_cases k <;>
            cases hfind : db.posts.find? (fun p => decide (p.id = pid)) <;>
            simp [hfind] <;>
            rename_i orow <;>
            by_cases hne : orow.user_id = u <;>
            simp [hfind, hne]
        · have h0 : ¬ (some k = some 0) := by simp only [Option.some.injEq]; omega
          have h1 : ¬ (some k = some 1) := by simp only [Option.some.injEq]; omega
          have h2 : ¬ (some k = some 2) := by simp only [Option.some.injEq]; omega
          have h3 : ¬ (some k = some 3) := by simp only [Option.some.injEq]; omega
          have h4 : ¬ (some k = some 4) := by simp only [Option.some.injEq]; omega
          cases hfind : db.posts.find? (fun p => decide (p.id = pid)) with
          | none => simp [hfind, h0, h1, h2, h3, h4]
          | some orow =>
            by_cases hne : orow.user_id = u <;>
              simp [hfind, hne, h0, h1, h2, h3, h4]
  have hcomm : ((add_comment_conn u pid text cid now db failAt).2 = .invalid →
       (add_comment_conn u pid text cid now db failAt).1 = db ∧
       add_comment u pid text cid now db = .error "Missing required fields") ∧
      ((add_comment_conn u pid text cid now db failAt).2 = .failed →
       (add_comment_conn u pid text cid now db failAt).1 = db) ∧
      (∀ c, (add_comment_conn u pid text cid now db failAt).2 = .ok c →
       add_comment u pid text cid now db
         = .ok ((add_comment_conn u pid text cid now db failAt).1, c)) := by
    by_cases hblank : pyStrip text = ""
    · simp [add_comment_conn, add_comment, hblank]
    · simp only [add_comment_conn, add_comment, Conn.exec, Conn.commit,
        Conn.rollback, hblank, if_false]
      rcases failAt with - | k
      · cases hfind : db.posts.find? (fun p => decide (p.id = pid)) with
        | none => simp [hfind]
        | some orow =>
          by_cases hne : orow.user_id = u
          · simp [hfind, hne]
          · simp [hfind, hne]
      · rcases Nat.lt_or_ge k 4 with hk | hk
        · interval_cases k <;>
            cases hfind : db.posts.find? (fun p => decide (p.id = pid)) <;>
            simp [hfind] <;>
            rename_i orow <;>
            by_cases hne : orow.user_id = u <;>
            simp [hfind, hne]
        · have h0 : ¬ (some k = some 0) := by simp only [Option.some.injEq]; omega
          have h1 : ¬ (some k = some 1) := by simp only [Option.some.injEq]; omega
          have h2 : ¬ (some k = some 2) := by simp only [Option.some.injEq]; omega
          have h3 : ¬ (some k = some 3) := by simp only [Option.some.injEq]; omega
          cases hfind : db.posts.find? (fun p => decide (p.id = pid)) with
          | none => simp [hfind, h0, h1, h2, h3]
          | some orow =>
            by_cases hne : orow.user_id = u <;>
              simp [hfind, hne, h0, h1, h2, h3]
  have htog : ((toggle_follow_conn a b db failAt).2 = .invalid →
       (toggle_follow_conn a b db failAt).1 = db ∧
       toggle_follow a b db = .error "Invalid request") ∧
      ((toggle_follow_conn a b db failAt).2 = .failed →
       (toggle_follow_conn a b db failAt).1 = db) ∧
      (∀ r, (toggle_follow_conn a b db failAt).2 = .ok r →
       toggle_follow a b db = .ok ((toggle_follow_conn a b db failAt).1, r)) := by
    by_cases hab : a = b
    · simp [toggle_follow_conn, toggle_follow, hab]
    · simp only [toggle_follow_conn, toggle_follow, Conn.exec, Conn.commit,
        Conn.rollback, hab, if_false]
      by_cases hmem : (a, b) ∈ db.follows
      · simp only [hmem, if_true]
        rcases failAt with - | k
        · simp
        · rcases Nat.lt_or_ge k 3 with hk | hk
          · interval_cases k <;> simp
          · have h0 : ¬ (some k = some 0) := by simp only [Option.some.injEq]; omega
            have h1 : ¬ (some k = some 1) := by simp only [Option.some.injEq]; omega
            have h2 : ¬ (some k = some 2) := by simp only [Option.some.injEq]; omega
            simp [h0, h1, h2]
      · simp only [hmem, if_false]
        rcases failAt with - | k
        · simp
        · rcases Nat.lt_or_ge k 4 with hk | hk
          · interval_cases k <;> simp
          · have h0 : ¬ (some k = some 0) := by simp only [Option.some.injEq]; omega
            have h1 : ¬ (some k = some 1) := by simp only [Option.some.injEq]; omega
            have h2 : ¬ (some k = some 2) := by simp only [Option.some.injEq]; omega
            have h3 : ¬ (some k = some 3) := by simp only [Option.some.injEq]; omega
            simp [h0, h1, h2, h3]
  have hup : ((upload_post_conn author caption npid nowp db failAt).2 = none →
       (upload_post_conn author caption npid nowp db failAt).1 = db) ∧
      (∀ P, (upload_post_conn author caption npid nowp db failAt).2 = some P →
       (upload_post_conn author caption npid nowp db failAt).1
         = (upload_post author caption npid nowp db).1 ∧
       P = (upload_post author caption npid nowp db).2) := by
    simp only [upload_post_conn, upload_post, Conn.exec, Conn.commit,
      Conn.rollback]
    rcases failAt with - | k
    · simp
    · rcases Nat.lt_or_ge k 3 with hk | hk
      · interval_cases k <;> simp
      · have h0 : ¬ (some k = some 0) := by simp only [Option.some.injEq]; omega
        have h1 : ¬ (some k = some 1) := by simp only [Option.some.injEq]; omega
        have h2 : ¬ (some k = some 2) := by simp only [Option.some.injEq]; omega
        simp [h0, h1, h2]
  have hust : ((upload_story_conn author sid nows exp db failAt).2 = none →
       (upload_story_conn author sid nows exp db failAt).1 = db) ∧
      (∀ S, (upload_story_conn author sid nows exp db failAt).2 = some S →
       (upload_story_conn author sid nows exp db failAt).1
         = (upload_story author sid nows exp db).1 ∧
       S = (upload_story author sid nows exp db).2) := by
    simp only [upload_story_conn, upload_story, Conn.exec, Conn.commit,
      Conn.rollback]
    rcases failAt with - | k
    · simp
    · rcases Nat.lt_or_ge k 3 with hk | hk
      · interval_cases k <;> simp
      · have h0 : ¬ (some k = some 0) := by simp only [Option.some.injEq]; omega
        have h1 : ¬ (some k = some 1) := by simp only [Option.some.injEq]; omega
        have h2 : ¬ (some k = some 2) := by simp only [Option.some.injEq]; omega
        simp [h0, h1, h2]
  exact ⟨hlike.1, hlike.2, hcomm.1, hcomm.2.1, hcomm.2.2,
         htog.1, htog.2.1, htog.2.2, hup.1, hup.2, hust.1, hust.2⟩

/-! ## C5 (corrected): the personal feed -/

/-- A store whose single user 1 has 51 posts: one more than the feed's
`LIMIT 50`. -/
def feedCexDB : DB :=
  ⟨[⟨1, ""⟩], [], (List.range 51).map (fun i => ⟨i, 1, "", i⟩), [], [], [], [], []⟩

set_option maxRecDepth 2000000 in
/-- C5 counterexample: post 0 is authored by viewer 1 and sits in the
store, yet `get_feed 1` omits it because 50 newer qualifying posts fill
the `LIMIT 50` page — so "contains P iff P's author is u or is followed
by u" fails as stated. -/
theorem get_feed_limit_counterexample :
    (⟨0, 1, "", 0⟩ : Post) ∈ feedCexDB.posts ∧
    Post.user_id ⟨0, 1, "", 0⟩ = 1 ∧
    (⟨0, 1, "", 0⟩ : Post) ∉ get_feed 1 feedCexDB ∧
    (get_feed 1 feedCexDB).length = 50 := by decide

/-- C5 as amended: every post in `get_feed u db` is a stored post whose
author joins the users table and is `u` or followed by `u`; the converse
holds whenever at most 50 posts qualify; and the feed is always
deduplicated by post id (given the primary key on posts), sorted by
creation time descending, and at most 50 posts long. -/
theorem get_feed_spec (u : Nat) (db : DB)
    (hnodup : (db.posts.map Post.id).Nodup) :
    (∀ p ∈ get_feed u db, p ∈ db.posts ∧ feedQualifies u db p = true) ∧
    ((db.posts.filter (feedQualifies u db)).length ≤ 50 →
       ∀ p, p ∈ get_feed u db ↔ p ∈ db.posts ∧ feedQualifies u db p = true) ∧
    ((get_feed u db).map Post.id).Nodup ∧
    List.Sorted postDesc (get_feed u db) ∧
    (get_feed u db).length ≤ 50 := by
  have hperm : List.Perm
      (List.insertionSort postDesc (db.posts.filter (feedQualifies u db)).dedup)
      (db.posts.filter (feedQualifies u db)).dedup :=
    List.perm_insertionSort postDesc _
  have hmem_sort : ∀ p, p ∈ List.insertionSort postDesc (db.posts.filter (feedQualifies u db)).dedup
      ↔ (p ∈ db.posts ∧ feedQualifies u db p = true) := by
    intro p
    rw [hperm.mem_iff, List.mem_dedup, List.mem_filter]
  refine ⟨?_, ?_, ?_, ?_, ?_⟩
  · intro p hp
    exact (hmem_sort p).mp (List.take_subset 50 _ hp)
  · intro hlen p
    have hlen2 : (List.insertionSort postDesc (db.posts.filter (feedQualifies u db)).dedup).length ≤ 50 := by
      rw [hperm.length_eq]
      exact le_trans (List.Sublist.length_le (List.dedup_sublist _)) hlen
    show p ∈ (List.insertionSort postDesc _).take 50 ↔ _
    rw [List.take_of_length_le hlen2]
    exact hmem_sort p
  · have h1 : ((db.posts.filter (feedQualifies u db)).map Post.id).Nodup :=
      ((List.filter_sublist _).map Post.id).nodup hnodup
    have h2 : ((db.posts.filter (feedQualifies u db)).dedup.map Post.id).Nodup :=
      ((List.dedup_sublist _).map Post.id).nodup h1
    have h3 : ((List.insertionSort postDesc (db.posts.filter (feedQualifies u db)).dedup).map Post.id).Nodup :=
      ((hperm.map Post.id).nodup_iff).mpr h2
    exact ((List.take_sublist 50 _).map Post.id).nodup h3
  · exact List.Pairwise.sublist (List.take_sublist 50 _)
      (List.sorted_insertionSort postDesc _)
  · exact List.length_take_le 50 _

/-- Witness for the amended C5: viewer 1 follows 2; the store holds one
post each by users 1, 2 and 3 — user 3's post stays out of the feed. -/
theorem get_feed_spec_witness :
    (∀ p ∈ get_feed 1 ⟨[⟨1, ""⟩, ⟨2, ""⟩, ⟨3, ""⟩], [(1, 2)], [⟨10, 1, "", 5⟩, ⟨11, 2, "", 6⟩, ⟨12, 3, "", 7⟩], [], [], [], [], []⟩,
        p ∈ [⟨10, 1, "", 5⟩, ⟨11, 2, "", 6⟩, (⟨12, 3, "", 7⟩ : Post)] ∧
        feedQualifies 1 ⟨[⟨1, ""⟩, ⟨2, ""⟩, ⟨3, ""⟩], [(1, 2)], [⟨10, 1, "", 5⟩, ⟨11, 2, "", 6⟩, ⟨12, 3, "", 7⟩], [], [], [], [], []⟩ p = true) ∧
    (([⟨10, 1, "", 5⟩, ⟨11, 2, "", 6⟩, (⟨12, 3, "", 7⟩ : Post)].filter (feedQualifies 1 ⟨[⟨1, ""⟩, ⟨2, ""⟩, ⟨3, ""⟩], [(1, 2)], [⟨10, 1, "", 5⟩, ⟨11, 2, "", 6⟩, ⟨12, 3, "", 7⟩], [], [], [], [], []⟩)).length ≤ 50 →
       ∀ p, p ∈ get_feed 1 ⟨[⟨1, ""⟩, ⟨2, ""⟩, ⟨3, ""⟩], [(1, 2)], [⟨10, 1, "", 5⟩, ⟨11, 2, "", 6⟩, ⟨12, 3, "", 7⟩], [], [], [], [], []⟩ ↔
         p ∈ [⟨10, 1, "", 5⟩, ⟨11, 2, "", 6⟩, (⟨12, 3, "", 7⟩ : Post)] ∧
         feedQualifies 1 ⟨[⟨1, ""⟩, ⟨2, ""⟩, ⟨3, ""⟩], [(1, 2)], [⟨10, 1, "", 5⟩, ⟨11, 2, "", 6⟩, ⟨12, 3, "", 7⟩], [], [], [], [], []⟩ p = true) ∧
    ((get_feed 1 ⟨[⟨1, ""⟩, ⟨2, ""⟩, ⟨3, ""⟩], [(1, 2)], [⟨10, 1, "", 5⟩, ⟨11, 2, "", 6⟩, ⟨12, 3, "", 7⟩], [], [], [], [], []⟩).map Post.id).Nodup ∧
    List.Sorted postDesc (get_feed 1 ⟨[⟨1, ""⟩, ⟨2, ""⟩, ⟨3, ""⟩], [(1, 2)], [⟨10, 1, "", 5⟩, ⟨11, 2, "", 6⟩, ⟨12, 3, "", 7⟩], [], [], [], [], []⟩) ∧
    (get_feed 1 ⟨[⟨1, ""⟩, ⟨2, ""⟩, ⟨3, ""⟩], [(1, 2)], [⟨10, 1, "", 5⟩, ⟨11, 2, "", 6⟩, ⟨12, 3, "", 7⟩], [], [], [], [], []⟩).length ≤ 50 :=
  get_feed_spec 1
    ⟨[⟨1, ""⟩, ⟨2, ""⟩, ⟨3, ""⟩], [(1, 2)], [⟨10, 1, "", 5⟩, ⟨11, 2, "", 6⟩, ⟨12, 3, "", 7⟩], [], [], [], [], []⟩
    (by decide)

/-! ## C4: lazy expiry sweep and the 24h story TTL -/

theorem mem_addToGroups {s t : Story} {gs : List StoryGroup} :
    (∃ g ∈ addToGroups gs t, s ∈ g.stories) ↔
      (∃ g ∈ gs, s ∈ g.stories) ∨ s = t := by
  unfold addToGroups
  by_cases hany : gs.any (fun g => decide (g.user_id = t.user_id)) = true
  · rw [if_pos hany]
    constructor
    · rintro ⟨g, hg, hs⟩
      rw [List.mem_map] at hg
      obtain ⟨g0, hg0, rfl⟩ := hg
      by_cases he : g0.user_id = t.user_id
      · rw [if_pos he] at hs
        rcases List.mem_append.mp hs with h | h
        · exact .inl ⟨g0, hg0, h⟩
        · exact .inr (by simpa using h)
      · rw [if_neg he] at hs
        exact .inl ⟨g0, hg0, hs⟩
    · rintro (⟨g, hg, hs⟩ | rfl)
      · refine ⟨if g.user_id = t.user_id then { g with stories := g.stories ++ [t] } else g,
                List.mem_map.mpr ⟨g, hg, rfl⟩, ?_⟩
        by_cases he : g.user_id = t.user_id
        · rw [if_pos he]
          exact List.mem_append.mpr (.inl hs)
        · rw [if_neg he]
          exact hs
      · obtain ⟨g0, hg0, he⟩ := List.any_eq_true.mp hany
        have he2 : g0.user_id = s.user_id := of_decide_eq_true he
        refine ⟨{ g0 with stories := g0.stories ++ [s] },
                List.mem_map.mpr ⟨g0, hg0, by rw [if_pos he2]⟩, ?_⟩
        simp
  · rw [if_neg hany]
    constructor
    · rintro ⟨g, hg, hs⟩
      rcases List.mem_append.mp hg with h | h
      · exact .inl ⟨g, h, hs⟩
      · have hgt : g = ⟨t.user_id, [t]⟩ := by simpa using h
        subst hgt
        exact .inr (by simpa using hs)
    · rintro (⟨g, hg, hs⟩ | rfl)
      · exact ⟨g, List.mem_append.mpr (.inl hg), hs⟩
      · exact ⟨⟨s.user_id, [s]⟩, List.mem_append.mpr (.inr (by simp)), by simp⟩

theorem mem_foldl_addToGroups (l : List Story) (gs : List StoryGroup)
    (s : Story) :
    (∃ g ∈ l.foldl addToGroups gs, s ∈ g.stories) ↔
      (∃ g ∈ gs, s ∈ g.stories) ∨ s ∈ l := by
  induction l generalizing gs with
  | nil => simp
  | cons t l ih =>
    rw [List.foldl_cons, ih, mem_addToGroups, List.mem_cons]
    exact or_assoc

theorem mem_groupStories {l : List Story} {s : Story} :
    (∃ g ∈ groupStories l, s ∈ g.stories) ↔ s ∈ l := by
  rw [groupStories, mem_foldl_addToGroups]
  simp

/-- C4: `get_stories` first physically deletes every story row whose
expiry time has passed and returns only stories strictly before expiry;
for a story with `expires_at = created_at + 24h` whose author the viewer
follows, the story is in the result one hour after creation and gone 25
hours after creation. -/
theorem get_stories_sweep_and_ttl (u now : Nat) (db : DB) (s : Story)
    (hmem : s ∈ db.stories)
    (httl : s.expires_at = s.created_at + 86400)
    (hfollow : (u, s.user_id) ∈ db.follows)
    (hauthor : userExists s.user_id db = true) :
    ((get_stories u now db).1.stories
        = db.stories.filter (fun t => decide (¬ t.expires_at < now))) ∧
    (∀ t ∈ (get_stories u now db).1.stories, ¬ t.expires_at < now) ∧
    (∀ g ∈ (get_stories u now db).2, ∀ t ∈ g.stories, now < t.expires_at) ∧
    (∃ g ∈ (get_stories u (s.created_at + 3600) db).2, s ∈ g.stories) ∧
    (∀ g ∈ (get_stories u (s.created_at + 90000) db).2, s ∉ g.stories) := by
  have hq : ∀ (n : Nat) (t : Story),
      t ∈ (get_stories u n db).2.flatMap StoryGroup.stories ↔
        (t ∈ db.stories ∧ ¬ t.expires_at < n) ∧
        userExists t.user_id db = true ∧
        t.user_id ∈ followingIdsOf u db ∧ n < t.expires_at := by
    intro n t
    show t ∈ (groupStories _).flatMap StoryGroup.stories ↔ _
    rw [List.mem_flatMap]
    simp only [StoryGroup.stories]
    rw [show (∃ g ∈ groupStories (List.insertionSort storyDesc _), t ∈ g.stories) ↔ _
          from mem_groupStories]
    rw [(List.perm_insertionSort storyDesc _).mem_iff, List.mem_filter,
        List.mem_filter]
    constructor
    · rintro ⟨⟨hmem2, hkeep⟩, hpred⟩
      simp only [Bool.and_eq_true, decide_eq_true_eq] at hkeep hpred
      exact ⟨⟨hmem2, hkeep⟩, hpred.1, hpred.2.1, hpred.2.2⟩
    · rintro ⟨⟨hmem2, hkeep⟩, hex, hfol, hact⟩
      refine ⟨⟨hmem2, by simpa using hkeep⟩, ?_⟩
      simp only [Bool.and_eq_true, decide_eq_true_eq]
      exact ⟨hex, hfol, hact⟩
  refine ⟨rfl, ?_, ?_, ?_, ?_⟩
  · intro t ht
    have := List.of_mem_filter ht
    simpa using this
  · intro g hg t ht
    have : t ∈ (get_stories u now db).2.flatMap StoryGroup.stories :=
      List.mem_flatMap.mpr ⟨g, hg, ht⟩
    exact ((hq now t).mp this).2.2.2
  · have : s ∈ (get_stories u (s.created_at + 3600) db).2.flatMap StoryGroup.stories := by
      apply (hq (s.created_at + 3600) s).mpr
      refine ⟨⟨hmem, by omega⟩, hauthor, mem_followingIdsOf.mpr hfollow, by omega⟩
    exact List.mem_flatMap.mp this
  · intro g hg hs
    have : s ∈ (get_stories u (s.created_at + 90000) db).2.flatMap StoryGroup.stories :=
      List.mem_flatMap.mpr ⟨g, hg, hs⟩
    have hact := ((hq (s.created_at + 90000) s).mp this).2.2.2
    omega

/-- Witness for C4: viewer 1 follows author 2, whose story 7 was created
at time 0 with a 24h expiry. -/
theorem get_stories_sweep_and_ttl_witness :
    ((get_stories 1 0 ⟨[⟨2, ""⟩], [(1, 2)], [], [⟨7, 2, 0, 86400⟩], [], [], [], []⟩).1.stories
        = [⟨7, 2, 0, 86400⟩].filter (fun t => decide (¬ Story.expires_at t < 0))) ∧
    (∀ t ∈ (get_stories 1 0 ⟨[⟨2, ""⟩], [(1, 2)], [], [⟨7, 2, 0, 86400⟩], [], [], [], []⟩).1.stories, ¬ t.expires_at < 0) ∧
    (∀ g ∈ (get_stories 1 0 ⟨[⟨2, ""⟩], [(1, 2)], [], [⟨7, 2, 0, 86400⟩], [], [], [], []⟩).2, ∀ t ∈ g.stories, 0 < t.expires_at) ∧
    (∃ g ∈ (get_stories 1 (Story.created_at ⟨7, 2, 0, 86400⟩ + 3600) ⟨[⟨2, ""⟩], [(1, 2)], [], [⟨7, 2, 0, 86400⟩], [], [], [], []⟩).2, (⟨7, 2, 0, 86400⟩ : Story) ∈ g.stories) ∧
    (∀ g ∈ (get_stories 1 (Story.created_at ⟨7, 2, 0, 86400⟩ + 90000) ⟨[⟨2, ""⟩], [(1, 2)], [], [⟨7, 2, 0, 86400⟩], [], [], [], []⟩).2, (⟨7, 2, 0, 86400⟩ : Story) ∉ g.stories) :=
  get_stories_sweep_and_ttl 1 0 ⟨[⟨2, ""⟩], [(1, 2)], [], [⟨7, 2, 0, 86400⟩], [], [], [], []⟩
    ⟨7, 2, 0, 86400⟩ (by decide) (by decide) (by decide) (by decide)

end Inkoki
